import Mathlib

/-!
Verification of the trend-fitting and ensemble zero-crossing forecasting core
of an ICP supply analysis program, together with its data-freshness/merge
subsystem.

The embedding models the program's tabular data as lists of records with
rational (exact) numeric fields; timestamps and dates are numeric.  Pandas
`Timestamp` conversion (`pd.to_datetime(ts, unit='s')`) is modelled by keeping
the numeric timestamp itself, and string messages that interpolate numeric
values in the source are modelled by their fixed text (apostrophes in source
messages are elided).  The acceleration predictor, whose source uses
`np.sqrt`, is modelled over the real numbers.
-/

namespace ICP

/-! Source: `src/prediction_models.py`, `predict_zero_crossing_linear`.
Method 1: predict when supply change reaches zero using the overall linear
trend.  The `current_date_numeric` argument is unused in the source as well. -/

def predict_zero_crossing_linear (slope intercept : ℚ) (current_date_numeric : ℚ) :
    Option ℚ × String :=
  if 0 ≤ slope then
    (none, "Slope is positive or zero, supply change will not reach zero")
  else
    (some (-intercept / slope), "Success")

/-! Source: `src/app.py`, `show_ensemble_predictions`, confidence assessment.
`spread_years = (max(pred_dates) - min(pred_dates)).days / 365.25`, then the
if/elif chain below classifies the confidence tier. -/

inductive Confidence where
  | high
  | moderate
  | low
  | veryLow
deriving DecidableEq

def classify_confidence (spread_years : ℚ) : Confidence :=
  if spread_years < 0.5 then .high
  else if spread_years < 1.0 then .moderate
  else if spread_years < 2.0 then .low
  else .veryLow

/-! Source: `src/src/data_refresh.py`, `ICPDataRetriever.merge_and_update_data`.
A CSV row is modelled by its `date` (a comparable numeric day key; the source
compares `pd.to_datetime` values of the `date` column), `total_supply`,
`supply_change` and `supply_change_pct` columns.  The `timestamp` and
`datetime` columns are carried through the merge unchanged and are omitted
from the model. -/

structure SupplyRow where
  date : ℕ
  total_supply : ℚ
  supply_change : ℚ
  supply_change_pct : ℚ
deriving DecidableEq

/-- The source computes `combined_df['supply_change'] = diff(total_supply)` and
`supply_change_pct = supply_change / total_supply.shift(1) * 100` row by row;
`recalcFrom prev` rewrites every row of the tail given the previous row. -/
def recalcFrom (prev : SupplyRow) : List SupplyRow → List SupplyRow
  | [] => []
  | r :: rs =>
    { r with supply_change := r.total_supply - prev.total_supply,
             supply_change_pct :=
               (r.total_supply - prev.total_supply) / prev.total_supply * 100 }
      :: recalcFrom r rs

/-- Recomputation of `supply_change`/`supply_change_pct` over a whole series;
the first row is set to zero (`combined_df.loc[0, ...] = 0` in the source). -/
def recomputeChanges : List SupplyRow → List SupplyRow
  | [] => []
  | r :: rs => { r with supply_change := 0, supply_change_pct := 0 } :: recalcFrom r rs

/-- `existing_df['date_dt'].max()`; `none` models pandas `NaT` on an empty
column. -/
def maxDate : List SupplyRow → Option ℕ
  | [] => none
  | r :: rs => some (rs.foldl (fun m x => max m x.date) r.date)

/-- The filter `new_data['date_dt'] > last_existing_date`; a comparison with
`NaT` (`none`) is false in pandas. -/
def afterLast (m : Option ℕ) (d : ℕ) : Bool :=
  match m with
  | none => false
  | some last => decide (last < d)

/-- `sort_values('date')`; the dates involved are pairwise distinct, so any
correct sort produces this unique order. -/
def sortByDate (l : List SupplyRow) : List SupplyRow :=
  List.insertionSort (fun a b => a.date ≤ b.date) l

/-- Source lines 125-163: keep only incoming rows strictly after the last
existing date; if none remain, return the existing data unchanged; otherwise
concatenate, re-sort by date and recompute both change columns over the whole
combined series. -/
def merge_and_update_data (existing newData : List SupplyRow) : List SupplyRow :=
  let newRecords := newData.filter (fun r => afterLast (maxDate existing) r.date)
  if newRecords.isEmpty then existing
  else recomputeChanges (sortByDate (existing ++ newRecords))

/-- Strictly ascending dates: sorted with no duplicate dates. -/
def dateSorted (l : List SupplyRow) : Prop :=
  List.Pairwise (fun a b => a.date < b.date) l

/-- Every row after the first carries the first difference of `total_supply`. -/
def firstDiffChain (l : List SupplyRow) : Prop :=
  List.Chain' (fun a b => b.supply_change = b.total_supply - a.total_supply) l

/-- The first record has `supply_change = 0` and `supply_change_pct = 0`. -/
def headZeros (l : List SupplyRow) : Prop :=
  ∀ r, l.head? = some r → r.supply_change = 0 ∧ r.supply_change_pct = 0

/-- Decidability of `List.Pairwise`, used to evaluate the series invariants on
concrete inputs. -/
instance decPairwise {α : Type} {R : α → α → Prop} [DecidableRel R] :
    ∀ l : List α, Decidable (List.Pairwise R l)
  | [] => .isTrue List.Pairwise.nil
  | _ :: l =>
    haveI := decPairwise (R := R) l
    decidable_of_iff _ List.pairwise_cons.symm

instance (l : List SupplyRow) : Decidable (dateSorted l) :=
  decPairwise l

/-- Kernel-reducible decidability of `List.Chain`. -/
def decChain {α : Type} {R : α → α → Prop} [DecidableRel R] (a : α) :
    ∀ l : List α, Decidable (List.Chain R a l)
  | [] => .isTrue List.Chain.nil
  | b :: l =>
    haveI := decChain (R := R) b l
    decidable_of_iff (R a b ∧ List.Chain R b l) List.chain_cons.symm

/-- Kernel-reducible decidability of `List.Chain'`. -/
def decChain' {α : Type} {R : α → α → Prop} [DecidableRel R] :
    ∀ l : List α, Decidable (List.Chain' R l)
  | [] => .isTrue trivial
  | a :: l => decChain a l

instance (l : List SupplyRow) : Decidable (firstDiffChain l) :=
  decChain' l

/-- Concrete existing series used to instantiate the merge theorems. -/
def exRowsC1 : List SupplyRow :=
  [⟨1, 10, 0, 0⟩, ⟨2, 12, 2, 20⟩]

/-- Concrete incoming series with one genuinely new date. -/
def newRowsC1 : List SupplyRow :=
  [⟨2, 12, 0, 0⟩, ⟨3, 15, 0, 0⟩]

/-- Concrete incoming series with no date beyond the existing last date. -/
def newRowsC7 : List SupplyRow :=
  [⟨1, 11, 0, 0⟩, ⟨2, 99, 0, 0⟩]

/-! Source: `src/src/data_refresh.py`, `ICPDataRetriever.refresh_data_if_needed`.
The on-disk store is modelled as the list of saved snapshot files, most recent
first: `get_latest_csv_file` returns the head, and `save_updated_data` writes
a new file while keeping the old one (removal is commented out in the source),
so saving pushes a snapshot onto the store.  The staleness test
(`needs_data_refresh`, a wall-clock comparison on the last timestamp) is a
boolean input, and the outcome of `fetch_icp_supply_data` is an input as
well: `none` stands for a transport or parse failure or an empty upstream
response (the source returns `None` and surfaces a message in those cases).
The result mirrors the source's `(csv_file_path, was_refreshed)` pair, the
path standing for the snapshot it holds. -/
def refresh_data_if_needed (store : List (List SupplyRow)) (stale : Bool)
    (fetched : Option (List SupplyRow)) :
    List (List SupplyRow) × (Option (List SupplyRow) × Bool) :=
  let existing := store.head?
  let needsRefresh :=
    match existing with
    | none => true
    | some _ => stale
  if needsRefresh then
    match fetched with
    | none =>
      match existing with
      | some e => (store, (some e, false))
      | none => (store, (none, false))
    | some nd =>
      if nd.isEmpty then
        match existing with
        | some e => (store, (some e, false))
        | none => (store, (none, false))
      else
        match existing with
        | some e =>
          let combined := merge_and_update_data e nd
          (combined :: store, (some combined, true))
        | none => (nd :: store, (some nd, true))
  else (store, (existing, false))

/-! Source: `src/src/prediction_models.py`, `ensemble_zero_prediction`, and
`src/app.py`, `show_ensemble_predictions`.  Each of the four predictor calls
sits in its own `try/except Exception: pass` block; its outcome is modelled
as `Except String (Option α × String)`: `.error` is a raised exception,
`.ok (none, reason)` a reported failure, `.ok (some r, msg)` a success.  The
collection logic is stated over the four outcomes; the predictors themselves
are embedded separately below. -/

/-- Evidence recorded per successful method (`methods_info` entry); absent
keys are `none`. -/
structure MethodInfo where
  slope : Option ℚ
  r_squared : Option ℚ
  description : String
deriving DecidableEq

/-- Result dictionary of `predict_zero_from_recent_trend` (the redundant
`days_from_last_observation` diagnostic field is omitted). -/
structure RecentResult where
  zero_date : ℚ
  latest_period : ℕ
  slope : ℚ
  intercept : ℚ
  r_squared : ℚ
  last_observation_date : ℕ
  last_supply_change : ℚ
deriving DecidableEq

/-- Result dictionary of `predict_zero_from_moving_average`. -/
structure MAResult where
  zero_date : ℚ
  slope : ℚ
  r_squared : ℚ
deriving DecidableEq

/-- Result dictionary of `predict_zero_with_acceleration` (diagnostic mean
fields are omitted); the date axis is real-valued because the source uses
`np.sqrt`. -/
structure AccelResult where
  zero_date : ℝ
  method : String

/-- The `try: result, msg = predictor(...)` / `except: pass` wrapper: a raised
exception yields no result, otherwise the returned optional result stands. -/
def tryPredictor {α : Type} (o : Except String (Option α × String)) : Option α :=
  match o with
  | .error _ => none
  | .ok (r, _) => r

/-- One `if result: predictions[name] = f(result)` step of the aggregator. -/
def optEntry {α β : Type} (name : String) (o : Except String (Option α × String))
    (f : α → β) : List (String × β) :=
  match tryPredictor o with
  | some r => [(name, f r)]
  | none => []

/-- `methods_info['linear']`: the slope is the overall slope passed in and the
`r_squared` is the hardcoded literal `0.004` ("From your notebook analysis"
in the source). -/
def linearInfo (slope : ℚ) : MethodInfo :=
  ⟨some slope, some 0.004, "Overall dataset linear regression"⟩

/-- `methods_info['quarterly']` (the f-string period in the description is
elided). -/
def quarterlyInfo (r : RecentResult) : MethodInfo :=
  ⟨some r.slope, some r.r_squared, "Based on latest quarter trend"⟩

/-- `methods_info['moving_average']`. -/
def maInfo (r : MAResult) : MethodInfo :=
  ⟨some r.slope, some r.r_squared, "30-day moving average trend (60 days of data)"⟩

/-- `methods_info['acceleration']`: no slope or r_squared evidence. -/
def accelInfo (_ : AccelResult) : MethodInfo :=
  ⟨none, none, "Using speed and acceleration"⟩

/-- Source lines 178-234: run the four predictors in order inside independent
`try/except` blocks, collecting `predictions` and `methods_info` keyed by
method id.  The rational predicted dates are placed on the common real date
axis. -/
def ensemble_zero_prediction (slope : ℚ)
    (o1 : Except String (Option ℚ × String))
    (o2 : Except String (Option RecentResult × String))
    (o3 : Except String (Option MAResult × String))
    (o4 : Except String (Option AccelResult × String)) :
    List (String × ℝ) × List (String × MethodInfo) :=
  (optEntry "linear" o1 (fun d => (d : ℝ)) ++
     optEntry "quarterly" o2 (fun r => (r.zero_date : ℝ)) ++
     optEntry "moving_average" o3 (fun r => (r.zero_date : ℝ)) ++
     optEntry "acceleration" o4 (fun r => r.zero_date),
   optEntry "linear" o1 (fun _ => linearInfo slope) ++
     optEntry "quarterly" o2 quarterlyInfo ++
     optEntry "moving_average" o3 maInfo ++
     optEntry "acceleration" o4 accelInfo)

/-- `src/app.py`, `show_ensemble_predictions`: `if not predictions:` show an
error ("No valid predictions could be generated from any method") and return;
otherwise report success. -/
def show_ensemble_fails (predictions : List (String × ℝ)) : Bool :=
  predictions.isEmpty

/-! Source: `src/src/prediction_models.py`, `predict_zero_from_recent_trend`,
with the `quarterly_trend_lines` mapping built in `src/app.py`
(`load_and_process_data`).  A trend entry keeps the fields the predictor
reads (`slope`, `r_squared`); the `x`/`y` plotting series are omitted.
Period keys are numeric and ordered like pandas `Period` quarters. -/

structure Trend where
  slope : ℚ
  r_squared : ℚ
deriving DecidableEq

/-- A row of `df_adj_sorted` as read by the recent-trend predictor:
`year_quarter`, `date_dt` (comparable date key), and the two columns subject
to `dropna`. -/
structure QRow where
  year_quarter : ℕ
  date_dt : ℕ
  date_numeric : Option ℚ
  supply_change : Option ℚ
deriving DecidableEq

/-- A row surviving `dropna(subset=['supply_change', 'date_numeric'])`. -/
structure VRow where
  year_quarter : ℕ
  date_dt : ℕ
  date_numeric : ℚ
  supply_change : ℚ
deriving DecidableEq

/-- `latest_period = max(quarterly_trends.keys())` together with the lookup
`quarterly_trends[latest_period]`: the entry with the maximal key (keys are
distinct in a dict; ties keep the first). -/
def latestPair : List (ℕ × Trend) → Option (ℕ × Trend)
  | [] => none
  | p :: ps => some (ps.foldl (fun best q => if best.1 < q.1 then q else best) p)

/-- `dropna(subset=['supply_change', 'date_numeric'])`. -/
def dropnaQ (l : List QRow) : List VRow :=
  l.filterMap fun r =>
    match r.supply_change, r.date_numeric with
    | some sc, some dn => some ⟨r.year_quarter, r.date_dt, dn, sc⟩
    | _, _ => none

/-- `df[df['year_quarter'] == latest_period]`, dropna, then
`sort_values('date_dt')`. -/
def quarterRows (p : ℕ) (df : List QRow) : List VRow :=
  List.insertionSort (fun a b => a.date_dt ≤ b.date_dt)
    (dropnaQ (df.filter (fun r => r.year_quarter == p)))

/-- Source lines 17-63: take the most recent quarter's least-squares trend,
fail on a non-negative slope or an empty quarter, otherwise anchor the line
through the quarter's last observed point (`intercept = lastY - slope*lastX`)
and solve `slope * x + intercept = 0`. -/
def predict_zero_from_recent_trend (quarterly_trends : List (ℕ × Trend))
    (df : List QRow) : Option RecentResult × String :=
  match latestPair quarterly_trends with
  | none => (none, "No quarterly trends available")
  | some (latest_period, latest_trend) =>
    if 0 ≤ latest_trend.slope then
      (none, "Supply change is increasing, will not reach zero with current trend")
    else
      match (quarterRows latest_period df).getLast? with
      | none => (none, "No valid data for recent quarter")
      | some last =>
        let slope := latest_trend.slope
        let intercept := last.supply_change - slope * last.date_numeric
        let zero_timestamp := -intercept / slope
        (some ⟨zero_timestamp, latest_period, slope, intercept,
          latest_trend.r_squared, last.date_dt, last.supply_change⟩, "Success")

/-! Source: `scipy.stats.linregress` as called by the repository, and
`src/src/prediction_models.py`, `predict_zero_from_moving_average`.
`linregress` is modelled from its documented behaviour: it raises
`ValueError` on empty input and when all x values are identical, and
otherwise returns the ordinary least-squares slope and intercept.  Only the
square of the Pearson r is ever consumed by this repository, so the model
records `r_squared` directly (when the y variance is zero scipy reports
`r = 0`, which coincides with rational division by zero yielding `0`). -/

structure LinregressResult where
  slope : ℚ
  intercept : ℚ
  r_squared : ℚ
deriving DecidableEq

def linregress (pts : List (ℚ × ℚ)) : Except String LinregressResult :=
  match pts with
  | [] => .error "Inputs must not be empty."
  | p :: rest =>
    if rest.all (fun q => q.1 == p.1) then
      .error "Cannot calculate a linear regression if all x values are identical"
    else
      let n : ℚ := (pts.length : ℚ)
      let mx := (pts.map Prod.fst).sum / n
      let my := (pts.map Prod.snd).sum / n
      let sxx := (pts.map (fun q => (q.1 - mx) ^ 2)).sum
      let sxy := (pts.map (fun q => (q.1 - mx) * (q.2 - my))).sum
      let syy := (pts.map (fun q => (q.2 - my) ^ 2)).sum
      let slope := sxy / sxx
      .ok ⟨slope, my - slope * mx, sxy ^ 2 / (sxx * syy)⟩

/-- A row of `df_adj_sorted` as read by the moving-average predictor. -/
structure MARow where
  date_numeric : Option ℚ
  change_30d_avg : Option ℚ
deriving DecidableEq

/-- `df.tail(n)`: the last `n` rows (all rows when fewer exist). -/
def tailRows {α : Type} (n : ℕ) (l : List α) : List α :=
  l.drop (l.length - n)

/-- `recent_data = df.tail(window * 2)` then
`dropna(subset=['change_30d_avg', 'date_numeric'])`, yielding the aligned
`(date_numeric, change_30d_avg)` sample handed to `linregress`. -/
def validRecent (df : List MARow) (window : ℕ) : List (ℚ × ℚ) :=
  (tailRows (window * 2) df).filterMap fun r =>
    match r.date_numeric, r.change_30d_avg with
    | some x, some y => some (x, y)
    | _, _ => none

/-- Source lines 65-90: require at least 10 valid points, fit a line to the
recent 30-day rolling average, fail on a non-negative slope, otherwise solve
for the zero crossing.  The `linregress` call is not guarded: an exception it
raises propagates out of this function (modelled by `Except.error`). -/
def predict_zero_from_moving_average (df : List MARow) (window : ℕ := 30) :
    Except String (Option MAResult × String) :=
  let valid_recent := validRecent df window
  if valid_recent.length < 10 then
    .ok (none, "Insufficient data for moving average trend")
  else
    match linregress valid_recent with
    | .error e => .error e
    | .ok res =>
      if 0 ≤ res.slope then
        .ok (none, "Moving average trend is positive, will not reach zero")
      else
        .ok (some ⟨-res.intercept / res.slope, res.slope, res.r_squared⟩, "Success")

/-- Concrete quarterly trend mapping used to instantiate the recent-trend
theorem: quarter `2` is the most recent and has a decreasing slope. -/
def tsC5 : List (ℕ × Trend) :=
  [(1, ⟨-1, 1/2⟩), (2, ⟨-2, 1/4⟩)]

/-- Concrete `df_adj_sorted` rows for the recent-trend witness: two valid
rows in quarter `2`, one NaN row dropped by `dropna`, one quarter-`1` row. -/
def dfC5 : List QRow :=
  [⟨1, 5, some 50, some 60⟩,
   ⟨2, 20, some 200, some 40⟩,
   ⟨2, 10, some 100, some 50⟩,
   ⟨2, 30, none, some 1⟩]

/-- Concrete moving-average input whose 10 valid points all share the same
`date_numeric`: the degenerate identical-x regression input. -/
def dfC9 : List MARow :=
  (List.range 10).map fun i => ⟨some 5, some (i : ℚ)⟩

/-! Source: `src/src/prediction_models.py`, `predict_zero_with_acceleration`.
The series is real-valued because the source takes `np.sqrt` of the
discriminant.  A row carries the date key (`date_dt`, in days so that
`last_date + pd.Timedelta(days=t)` is addition) and `supply_change`; the
derivative columns are computed from `supply_change` with `np.gradient` as in
the source (the ensemble path reaches this function with neither derivative
column present). -/

structure ARow where
  date_dt : ℝ
  supply_change : ℝ

/-- `np.gradient`: second-order central differences with one-sided first-order
differences at the boundaries.  (`np.gradient` requires at least two points;
the singleton placeholder is never reached by the theorems below.) -/
noncomputable def npGradient (ys : List ℝ) : List ℝ :=
  match ys with
  | [] => []
  | [_] => [0]
  | _ =>
    (List.range ys.length).map fun i =>
      if i = 0 then ys.getD 1 0 - ys.getD 0 0
      else if i = ys.length - 1 then
        ys.getD (ys.length - 1) 0 - ys.getD (ys.length - 2) 0
      else (ys.getD (i + 1) 0 - ys.getD (i - 1) 0) / 2

/-- Column `.mean()` (pandas yields NaN on an empty column; the theorems only
use non-empty data). -/
noncomputable def listMean (l : List ℝ) : ℝ :=
  l.sum / l.length

/-- `recent_data = df.tail(30); recent_change = recent_data['supply_change'].mean()`. -/
noncomputable def accelRecentChange (df : List ARow) : ℝ :=
  listMean (tailRows 30 (df.map (·.supply_change)))

/-- Mean of the trailing 30 values of
`supply_change_derivative = np.gradient(supply_change)`. -/
noncomputable def accelRecentSpeed (df : List ARow) : ℝ :=
  listMean (tailRows 30 (npGradient (df.map (·.supply_change))))

/-- Mean of the trailing 30 values of
`acceleration = np.gradient(supply_change_derivative)`. -/
noncomputable def accelRecentAccel (df : List ARow) : ℝ :=
  listMean (tailRows 30 (npGradient (npGradient (df.map (·.supply_change)))))

/-- `df_adj_sorted['date_dt'].iloc[-1]`, the most recent observed date. -/
noncomputable def accelLastDate (df : List ARow) : ℝ :=
  ((df.map (·.date_dt)).getLast?).getD 0

/-- Source lines 144-176, the quadratic branch: solve
`0.5*accel*t^2 + speed*t + change = 0` (`a`, `b`, `c` as in the source), fail
on a negative discriminant, keep the positive roots
(`[t for t in [t1, t2] if t > 0]`), fail when there are none, else project the
smallest positive root in days from the last observed date. -/
noncomputable def accelQuadratic (recent_accel recent_speed recent_change
    last_date : ℝ) : Option AccelResult × String :=
  let a := 0.5 * recent_accel
  let b := recent_speed
  let c := recent_change
  let disc := b ^ 2 - 4 * a * c
  if disc < 0 then (none, "No real solution for quadratic equation")
  else
    let t1 := (-b + Real.sqrt disc) / (2 * a)
    let t2 := (-b - Real.sqrt disc) / (2 * a)
    match (if 0 < t1 then [t1] else []) ++ (if 0 < t2 then [t2] else []) with
    | [] => (none, "No positive solution found")
    | t :: ts => (some ⟨last_date + ts.foldl min t, "acceleration_quadratic"⟩, "Success")

/-- Source lines 92-176: branch on the trailing means; positive and
non-decreasing change fails, positive but decreasing change projects linearly
(`linear_speed`), negligible acceleration projects linearly
(`acceleration_linear`), otherwise the quadratic model is solved.  All
projections add `t` days to the last observed date — "now" is never read. -/
noncomputable def predict_zero_with_acceleration (df : List ARow) :
    Option AccelResult × String :=
  let recent_change := accelRecentChange df
  let recent_speed := accelRecentSpeed df
  let recent_accel := accelRecentAccel df
  let last_date := accelLastDate df
  if recent_change > 0 ∧ recent_speed ≥ 0 then
    (none, "Supply change is positive and increasing, not heading toward zero")
  else if recent_change > 0 ∧ recent_speed < 0 then
    if recent_speed ≥ 0 then (none, "Speed is not negative enough to reach zero")
    else (some ⟨last_date + -recent_change / recent_speed, "linear_speed"⟩, "Success")
  else if |recent_accel| < 1e-10 then
    if recent_speed ≥ 0 then (none, "Speed is not negative, will not reach zero")
    else (some ⟨last_date + -recent_change / recent_speed, "acceleration_linear"⟩, "Success")
  else accelQuadratic recent_accel recent_speed recent_change last_date

/-- Concrete three-row series reaching the quadratic branch with trailing
means `change = -4`, `speed = 3`, `accel = 2`: the quadratic
`t^2 + 3t - 4 = 0` has roots `1` and `-4`, so the crossing is one day after
the last observed date `102`. -/
noncomputable def dfC6 : List ARow :=
  [⟨100, -19/3⟩, ⟨101, -16/3⟩, ⟨102, -1/3⟩]

/-- C3: for every spread value (in years, as computed from the non-empty
prediction set), the confidence classification is: high iff the spread is
`< 0.5`, moderate iff it is in `[0.5, 1)`, low iff it is in `[1, 2)`, and very
low iff it is `>= 2`; in particular a spread of exactly `0.5` years classifies
as moderate, not high. -/
theorem confidence_bands_C3 (s : ℚ) :
    (classify_confidence s = .high ↔ s < 0.5) ∧
    (classify_confidence s = .moderate ↔ 0.5 ≤ s ∧ s < 1) ∧
    (classify_confidence s = .low ↔ 1 ≤ s ∧ s < 2) ∧
    (classify_confidence s = .veryLow ↔ 2 ≤ s) ∧
    classify_confidence 0.5 = .moderate := by
  refine ⟨?_, ?_, ?_, ?_, by norm_num [classify_confidence]⟩ <;>
    simp only [classify_confidence] <;>
    split_ifs with h1 h2 h3 <;>
    simp <;>
    first
      | (rintro ⟨a, b⟩; linarith)
      | (intro a; linarith)
      | (exact ⟨by linarith, by linarith⟩)
      | linarith

/-- C4: the overall-linear predictor returns a non-error failure message when
`slope >= 0`; when `slope < 0` it returns the date corresponding to timestamp
`-intercept / slope`; in particular for `slope = -100000` and
`intercept = 100000 * T0` the predicted date corresponds to timestamp `T0`. -/
theorem predict_linear_C4 (slope intercept c : ℚ) :
    (0 ≤ slope → predict_zero_crossing_linear slope intercept c =
      (none, "Slope is positive or zero, supply change will not reach zero")) ∧
    (slope < 0 → predict_zero_crossing_linear slope intercept c =
      (some (-intercept / slope), "Success")) ∧
    (∀ T0 : ℚ, predict_zero_crossing_linear (-100000) (100000 * T0) c =
      (some T0, "Success")) := by
  refine ⟨?_, ?_, ?_⟩
  · intro h
    simp [predict_zero_crossing_linear, h]
  · intro h
    simp [predict_zero_crossing_linear, not_le.mpr h]
  · intro T0
    have hval : -(100000 * T0) / (-100000 : ℚ) = T0 := by
      field_simp
    simp only [predict_zero_crossing_linear]
    rw [if_neg (by norm_num)]
    rw [hval]

/-- Witness for C4 at slope `-100000`, `T0 = 7`, and at slope `0`. -/
theorem predict_linear_C4_witness :
    predict_zero_crossing_linear (-100000) (100000 * 7) 0 = (some 7, "Success") ∧
    predict_zero_crossing_linear 0 5 0 =
      (none, "Slope is positive or zero, supply change will not reach zero") :=
  ⟨(predict_linear_C4 (-100000) (100000 * 7) 0).2.2 7,
   (predict_linear_C4 0 5 0).1 (le_refl 0)⟩

theorem recalcFrom_map_date (p : SupplyRow) (l : List SupplyRow) :
    (recalcFrom p l).map (·.date) = l.map (·.date) := by
  induction l generalizing p with
  | nil => rfl
  | cons r rs ih => simp [recalcFrom, ih]

theorem recomputeChanges_map_date (l : List SupplyRow) :
    (recomputeChanges l).map (·.date) = l.map (·.date) := by
  cases l with
  | nil => rfl
  | cons r rs => simp [recomputeChanges, recalcFrom_map_date]

theorem chain_recalcFrom (p q : SupplyRow) (hq : q.total_supply = p.total_supply)
    (l : List SupplyRow) :
    List.Chain (fun a b => b.supply_change = b.total_supply - a.total_supply) q
      (recalcFrom p l) := by
  induction l generalizing p q with
  | nil => exact List.Chain.nil
  | cons r rs ih =>
    refine List.Chain.cons ?_ (ih r _ rfl)
    simp [hq]

theorem firstDiffChain_recomputeChanges (l : List SupplyRow) :
    firstDiffChain (recomputeChanges l) := by
  cases l with
  | nil => simp [firstDiffChain, recomputeChanges]
  | cons r rs =>
    show List.Chain _ { r with supply_change := 0, supply_change_pct := 0 }
      (recalcFrom r rs)
    exact chain_recalcFrom r { r with supply_change := 0, supply_change_pct := 0 } rfl rs

theorem foldl_max_ge_init (rs : List SupplyRow) (a : ℕ) :
    a ≤ rs.foldl (fun m x => max m x.date) a := by
  induction rs generalizing a with
  | nil => exact le_refl a
  | cons y ys ih => exact le_trans (le_max_left a y.date) (ih (max a y.date))

theorem foldl_max_ge_mem (rs : List SupplyRow) (a : ℕ) :
    ∀ x ∈ rs, x.date ≤ rs.foldl (fun m x => max m x.date) a := by
  induction rs generalizing a with
  | nil => intro x hx; cases hx
  | cons y ys ih =>
    intro x hx
    rcases List.mem_cons.mp hx with rfl | hx
    · exact le_trans (le_max_right a x.date) (foldl_max_ge_init ys (max a x.date))
    · exact ih (max a y.date) x hx

theorem le_maxDate {l : List SupplyRow} {m : ℕ} (h : maxDate l = some m) :
    ∀ r ∈ l, r.date ≤ m := by
  cases l with
  | nil => simp [maxDate] at h
  | cons r rs =>
    simp only [maxDate, Option.some.injEq] at h
    intro x hx
    rcases List.mem_cons.mp hx with rfl | hx
    · exact h ▸ foldl_max_ge_init rs x.date
    · exact h ▸ foldl_max_ge_mem rs r.date x hx

theorem afterLast_true {o : Option ℕ} {d : ℕ} (h : afterLast o d = true) :
    ∃ m, o = some m ∧ m < d := by
  cases o with
  | none => simp [afterLast] at h
  | some m =>
    simp only [afterLast, decide_eq_true_eq] at h
    exact ⟨m, rfl, h⟩

theorem dateSorted_of_map_date_eq {l l' : List SupplyRow}
    (h : l'.map (·.date) = l.map (·.date)) (hl : dateSorted l) : dateSorted l' := by
  have hm : List.Pairwise (· < ·) (l.map (·.date)) := List.pairwise_map.mpr hl
  rw [← h] at hm
  exact List.pairwise_map.mp hm

/-- C1: for every valid merge of an existing ordered, first-difference-correct
series with an incoming ordered series, the combined series returned by
`merge_and_update_data` is sorted ascending by date with no duplicate dates,
`supply_change` at every index `i > 0` equals
`total_supply[i] - total_supply[i-1]` (recomputed over the whole combined
series), and the first record has `supply_change = 0` and
`supply_change_pct = 0`. -/
theorem merge_invariants_C1
    (existing newData : List SupplyRow)
    (hex : dateSorted existing)
    (hne : existing ≠ [])
    (hchain : firstDiffChain existing)
    (hhead : headZeros existing)
    (hnew : dateSorted newData) :
    dateSorted (merge_and_update_data existing newData) ∧
    (∀ i (h : i + 1 < (merge_and_update_data existing newData).length),
      ((merge_and_update_data existing newData).get ⟨i + 1, h⟩).supply_change =
        ((merge_and_update_data existing newData).get ⟨i + 1, h⟩).total_supply -
          ((merge_and_update_data existing newData).get
            ⟨i, Nat.lt_of_succ_lt h⟩).total_supply) ∧
    headZeros (merge_and_update_data existing newData) := by
  by_cases hF : newData.filter (fun r => afterLast (maxDate existing) r.date) = []
  · have hmerge : merge_and_update_data existing newData = existing := by
      simp [merge_and_update_data, hF]
    rw [hmerge]
    refine ⟨hex, ?_, hhead⟩
    rw [firstDiffChain, List.chain'_iff_get] at hchain
    intro i h
    exact hchain i (by omega)
  · set F := newData.filter (fun r => afterLast (maxDate existing) r.date) with hFdef
    obtain ⟨m, hm⟩ : ∃ m, maxDate existing = some m := by
      cases existing with
      | nil => exact absurd rfl hne
      | cons r rs => exact ⟨_, rfl⟩
    have hcross : ∀ a ∈ existing, ∀ b ∈ F, a.date < b.date := by
      intro a ha b hb
      have hbf := List.mem_filter.mp hb
      obtain ⟨mb, hmb, hlt⟩ := afterLast_true hbf.2
      rw [hm] at hmb
      injection hmb with e
      subst e
      exact lt_of_le_of_lt (le_maxDate hm a ha) hlt
    have hstrict : List.Pairwise (fun a b => a.date < b.date) (existing ++ F) :=
      List.pairwise_append.mpr ⟨hex, hnew.filter _, hcross⟩
    have hsorted : List.Sorted (fun a b => a.date ≤ b.date) (existing ++ F) :=
      hstrict.imp fun h => le_of_lt h
    have hsort_eq : sortByDate (existing ++ F) = existing ++ F := by
      rw [sortByDate]
      exact List.Sorted.insertionSort_eq hsorted
    have hmerge : merge_and_update_data existing newData =
        recomputeChanges (existing ++ F) := by
      rw [merge_and_update_data]
      rw [if_neg (by simp [← hFdef, hF])]
      rw [← hFdef, hsort_eq]
    rw [hmerge]
    refine ⟨?_, ?_, ?_⟩
    · exact dateSorted_of_map_date_eq (recomputeChanges_map_date _) hstrict
    · have hc := firstDiffChain_recomputeChanges (existing ++ F)
      rw [firstDiffChain, List.chain'_iff_get] at hc
      intro i h
      exact hc i (by omega)
    · cases existing with
      | nil => exact absurd rfl hne
      | cons r rs =>
        intro r' hr'
        rw [List.cons_append] at hr'
        simp only [recomputeChanges, List.head?_cons, Option.some.injEq] at hr'
        rw [← hr']
        exact ⟨rfl, rfl⟩

/-- Witness for C1: an ordered two-row existing series merged with an incoming
series containing one genuinely new date satisfies all hypotheses, and the
combined series enjoys the stated invariants. -/
theorem merge_invariants_C1_witness :
    (dateSorted exRowsC1 ∧ exRowsC1 ≠ [] ∧ firstDiffChain exRowsC1 ∧
      headZeros exRowsC1 ∧ dateSorted newRowsC1) ∧
    (dateSorted (merge_and_update_data exRowsC1 newRowsC1) ∧
      (∀ i (h : i + 1 < (merge_and_update_data exRowsC1 newRowsC1).length),
        ((merge_and_update_data exRowsC1 newRowsC1).get ⟨i + 1, h⟩).supply_change =
          ((merge_and_update_data exRowsC1 newRowsC1).get ⟨i + 1, h⟩).total_supply -
            ((merge_and_update_data exRowsC1 newRowsC1).get
              ⟨i, Nat.lt_of_succ_lt h⟩).total_supply) ∧
      headZeros (merge_and_update_data exRowsC1 newRowsC1)) :=
  ⟨⟨by decide, by decide,
    by norm_num [firstDiffChain, exRowsC1, List.chain'_cons, List.chain'_singleton],
    fun r hr => by cases hr; exact ⟨rfl, rfl⟩, by decide⟩,
   merge_invariants_C1 exRowsC1 newRowsC1 (by decide) (by decide)
    (by norm_num [firstDiffChain, exRowsC1, List.chain'_cons, List.chain'_singleton])
    (fun r hr => by cases hr; exact ⟨rfl, rfl⟩) (by decide)⟩

/-- C7: when the incoming series contains no dates strictly after the existing
series' last date (its date maximum), `merge_and_update_data` returns the
existing series unchanged. -/
theorem merge_noop_C7
    (existing newData : List SupplyRow) (m : ℕ)
    (hmax : maxDate existing = some m)
    (hnew : ∀ r ∈ newData, r.date ≤ m) :
    merge_and_update_data existing newData = existing := by
  have hfil : newData.filter (fun r => afterLast (maxDate existing) r.date) = [] := by
    rw [List.filter_eq_nil_iff]
    intro r hr
    simp only [afterLast, hmax, decide_eq_true_eq, Bool.not_eq_true]
    simpa using not_lt.mpr (hnew r hr)
  simp [merge_and_update_data, hfil]

/-- Witness for C7: an incoming series whose dates all lie at or before the
existing maximum date leaves the existing series untouched. -/
theorem merge_noop_C7_witness :
    maxDate exRowsC1 = some 2 ∧ (∀ r ∈ newRowsC7, r.date ≤ 2) ∧
    merge_and_update_data exRowsC1 newRowsC7 = exRowsC1 :=
  ⟨by decide, by decide, merge_noop_C7 exRowsC1 newRowsC7 2 (by decide) (by decide)⟩

/-- C8: with a usable prior snapshot, a transport/parse failure or an empty
fetch leaves the persisted store unmodified and returns the existing snapshot
flagged as not refreshed; with no snapshot and a failed fetch, the refresh
returns no usable path. -/
theorem refresh_failure_policy_C8
    (store : List (List SupplyRow)) (stale : Bool)
    (fetched : Option (List SupplyRow)) (e : List SupplyRow)
    (hfail : fetched = none ∨ fetched = some []) :
    (store.head? = some e →
      refresh_data_if_needed store stale fetched = (store, (some e, false))) ∧
    (store = [] →
      refresh_data_if_needed store stale fetched = ([], (none, false))) := by
  constructor
  · intro hhead
    rcases hfail with rfl | rfl <;>
      cases store with
      | nil => simp at hhead
      | cons s rest =>
        simp only [List.head?_cons, Option.some.injEq] at hhead
        subst hhead
        cases stale <;> simp [refresh_data_if_needed]
  · intro hstore
    subst hstore
    rcases hfail with rfl | rfl <;> simp [refresh_data_if_needed]

/-- Witness for C8: a failed fetch with one stored snapshot returns it
unrefreshed and leaves the store alone; with an empty store it returns no
path. -/
theorem refresh_failure_policy_C8_witness :
    refresh_data_if_needed [exRowsC1] true none = ([exRowsC1], (some exRowsC1, false)) ∧
    refresh_data_if_needed [] true none = ([], (none, false)) :=
  ⟨(refresh_failure_policy_C8 [exRowsC1] true none exRowsC1 (Or.inl rfl)).1 rfl,
   (refresh_failure_policy_C8 [] true none exRowsC1 (Or.inl rfl)).2 rfl⟩

/-- C2: each of the four methods appears in the ensemble result exactly when
its own predictor succeeded — a failure or raised exception in any one
predictor never affects whether the others are collected — and the ensemble
call is reported as a failure if and only if zero predictors succeed. -/
theorem ensemble_isolation_C2 (slope : ℚ)
    (o1 : Except String (Option ℚ × String))
    (o2 : Except String (Option RecentResult × String))
    (o3 : Except String (Option MAResult × String))
    (o4 : Except String (Option AccelResult × String)) :
    ("linear" ∈ (ensemble_zero_prediction slope o1 o2 o3 o4).1.map Prod.fst ↔
      (tryPredictor o1).isSome = true) ∧
    ("quarterly" ∈ (ensemble_zero_prediction slope o1 o2 o3 o4).1.map Prod.fst ↔
      (tryPredictor o2).isSome = true) ∧
    ("moving_average" ∈ (ensemble_zero_prediction slope o1 o2 o3 o4).1.map Prod.fst ↔
      (tryPredictor o3).isSome = true) ∧
    ("acceleration" ∈ (ensemble_zero_prediction slope o1 o2 o3 o4).1.map Prod.fst ↔
      (tryPredictor o4).isSome = true) ∧
    (show_ensemble_fails (ensemble_zero_prediction slope o1 o2 o3 o4).1 = true ↔
      tryPredictor o1 = none ∧ tryPredictor o2 = none ∧
        tryPredictor o3 = none ∧ tryPredictor o4 = none) := by
  cases h1 : tryPredictor o1 <;> cases h2 : tryPredictor o2 <;>
    cases h3 : tryPredictor o3 <;> cases h4 : tryPredictor o4 <;>
    simp [ensemble_zero_prediction, optEntry, show_ensemble_fails, h1, h2, h3, h4]

/-- C10: whenever the overall-linear method succeeds, the `r_squared` recorded
in its evidence is the constant `0.004`, independent of every input. -/
theorem linear_rsq_constant_C10 (slope : ℚ) (d : ℚ) (msg : String)
    (o2 : Except String (Option RecentResult × String))
    (o3 : Except String (Option MAResult × String))
    (o4 : Except String (Option AccelResult × String)) :
    ((ensemble_zero_prediction slope (.ok (some d, msg)) o2 o3 o4).2).head? =
      some ("linear", linearInfo slope) ∧
    List.lookup "linear" ((ensemble_zero_prediction slope (.ok (some d, msg)) o2 o3 o4).2) =
      some (linearInfo slope) ∧
    (linearInfo slope).r_squared = some 0.004 := by
  refine ⟨?_, ?_, rfl⟩ <;>
    simp [ensemble_zero_prediction, optEntry, tryPredictor, List.lookup]

theorem foldl_latest_spec (ps : List (ℕ × Trend)) (p : ℕ × Trend) :
    ps.foldl (fun best q => if best.1 < q.1 then q else best) p ∈ p :: ps ∧
    p.1 ≤ (ps.foldl (fun best q => if best.1 < q.1 then q else best) p).1 ∧
    ∀ q ∈ ps, q.1 ≤ (ps.foldl (fun best q => if best.1 < q.1 then q else best) p).1 := by
  induction ps generalizing p with
  | nil => exact ⟨List.mem_cons_self p [], le_refl _, by intro q hq; cases hq⟩
  | cons y ys ih =>
    have ih' := ih (if p.1 < y.1 then y else p)
    simp only [List.foldl_cons]
    refine ⟨?_, ?_, ?_⟩
    · rcases List.mem_cons.mp ih'.1 with h | h
      · rw [h]
        split_ifs
        · exact List.mem_cons_of_mem p (List.mem_cons_self y ys)
        · exact List.mem_cons_self p _
      · exact List.mem_cons_of_mem p (List.mem_cons_of_mem y h)
    · refine le_trans ?_ ih'.2.1
      split_ifs with hpy
      · exact le_of_lt hpy
      · exact le_refl _
    · intro q hq
      rcases List.mem_cons.mp hq with rfl | hq
      · refine le_trans ?_ ih'.2.1
        split_ifs with hpy
        · exact le_refl _
        · exact le_of_not_lt hpy
      · exact ih'.2.2 q hq

theorem latestPair_spec {ts : List (ℕ × Trend)} {p : ℕ} {tr : Trend}
    (h : latestPair ts = some (p, tr)) :
    (p, tr) ∈ ts ∧ ∀ q ∈ ts, q.1 ≤ p := by
  cases ts with
  | nil => simp [latestPair] at h
  | cons a as =>
    simp only [latestPair, Option.some.injEq] at h
    have hs := foldl_latest_spec as a
    rw [h] at hs
    exact ⟨hs.1, by
      intro q hq
      rcases List.mem_cons.mp hq with rfl | hq
      · exact hs.2.1
      · exact hs.2.2 q hq⟩

/-- C5: the recent-period predictor selects the most-recently-dated quarter
bucket, keeps that bucket's least-squares slope, recomputes the intercept as
`lastObservedY - slope * lastObservedX` (anchoring through the bucket's last
observed point), predicts the date at timestamp `-intercept / slope`, and
fails with a reason (never raising) when no quarter trend exists or the slope
is non-negative. -/
theorem recent_trend_C5 (ts : List (ℕ × Trend)) (df : List QRow) :
    (ts = [] →
      predict_zero_from_recent_trend ts df = (none, "No quarterly trends available")) ∧
    (∀ p tr, latestPair ts = some (p, tr) → (p, tr) ∈ ts ∧ ∀ q ∈ ts, q.1 ≤ p) ∧
    (∀ p tr, latestPair ts = some (p, tr) → 0 ≤ tr.slope →
      predict_zero_from_recent_trend ts df =
        (none, "Supply change is increasing, will not reach zero with current trend")) ∧
    (∀ p tr, latestPair ts = some (p, tr) → tr.slope < 0 →
      (quarterRows p df).getLast? = none →
      predict_zero_from_recent_trend ts df = (none, "No valid data for recent quarter")) ∧
    (∀ p tr last, latestPair ts = some (p, tr) → tr.slope < 0 →
      (quarterRows p df).getLast? = some last →
      predict_zero_from_recent_trend ts df =
        (some ⟨-(last.supply_change - tr.slope * last.date_numeric) / tr.slope, p,
          tr.slope, last.supply_change - tr.slope * last.date_numeric,
          tr.r_squared, last.date_dt, last.supply_change⟩, "Success")) := by
  refine ⟨?_, ?_, ?_, ?_, ?_⟩
  · intro h
    subst h
    rfl
  · intro p tr h
    exact latestPair_spec h
  · intro p tr h hs
    simp [predict_zero_from_recent_trend, h, hs]
  · intro p tr h hs hlast
    simp [predict_zero_from_recent_trend, h, not_le.mpr hs, hlast]
  · intro p tr last h hs hlast
    simp [predict_zero_from_recent_trend, h, not_le.mpr hs, hlast]

/-- Witness for C5: two quarter trends with maximal key `2`, a decreasing
slope `-2`, and a quarter whose last observed point is `(x, y) = (200, 40)`;
the predictor anchors the intercept at `40 - (-2)*200 = 440` and predicts the
crossing at `220`. -/
theorem recent_trend_C5_witness :
    latestPair tsC5 = some (2, ⟨-2, 1/4⟩) ∧ (-2 : ℚ) < 0 ∧
    (quarterRows 2 dfC5).getLast? = some ⟨2, 20, 200, 40⟩ ∧
    predict_zero_from_recent_trend tsC5 dfC5 =
      (some ⟨220, 2, -2, 440, 1/4, 20, 40⟩, "Success") := by
  have hlp : latestPair tsC5 = some (2, ⟨-2, 1/4⟩) := by
    simp [latestPair, tsC5]
  have hlast : (quarterRows 2 dfC5).getLast? = some ⟨2, 20, 200, 40⟩ := by
    simp [quarterRows, dfC5, dropnaQ, List.insertionSort, List.orderedInsert]
  have h := (recent_trend_C5 tsC5 dfC5).2.2.2.2 2 ⟨-2, 1/4⟩ ⟨2, 20, 200, 40⟩ hlp
    (by norm_num) hlast
  refine ⟨hlp, by norm_num, hlast, ?_⟩
  rw [h]
  simp only [Prod.mk.injEq, Option.some.injEq, RecentResult.mk.injEq]
  norm_num

theorem not_mem_optEntry {α β : Type} (name key : String) (hne : key ≠ name)
    (o : Except String (Option α × String)) (f : α → β) :
    key ∉ (optEntry name o f).map Prod.fst := by
  unfold optEntry
  cases tryPredictor o <;> simp [hne]

/-- C9 counterexample: on a 10-point sample whose x values are all identical,
the moving-average trend fit raises the identical-x regression error instead
of reporting an insufficient-data result: the operation does not report
`InsufficientData`. -/
theorem moving_average_identical_x_C9_counterexample :
    predict_zero_from_moving_average dfC9 30 =
      Except.error "Cannot calculate a linear regression if all x values are identical" ∧
    (predict_zero_from_moving_average dfC9 30).isOk = false := by
  constructor <;> rfl

/-- C9 (amended): on every fit input with at least 10 valid points whose x
values are all identical, the regression raises the identical-x error, which
the moving-average predictor propagates; the ensemble aggregator's exception
suppression then leaves the fit simply absent from the ensemble result. -/
theorem moving_average_identical_x_C9 (df : List MARow) (x0 : ℚ)
    (hlen : 10 ≤ (validRecent df 30).length)
    (hx : ∀ p ∈ validRecent df 30, p.1 = x0) :
    predict_zero_from_moving_average df 30 =
      Except.error "Cannot calculate a linear regression if all x values are identical" ∧
    ∀ (slope : ℚ) (o1 : Except String (Option ℚ × String))
      (o2 : Except String (Option RecentResult × String))
      (o4 : Except String (Option AccelResult × String)),
      "moving_average" ∉ (ensemble_zero_prediction slope o1 o2
        (predict_zero_from_moving_average df 30) o4).1.map Prod.fst := by
  have hvne : validRecent df 30 ≠ [] := by
    intro h
    rw [h] at hlen
    simp at hlen
  obtain ⟨p, rest, hv⟩ := List.exists_cons_of_ne_nil hvne
  have herr : predict_zero_from_moving_average df 30 =
      Except.error "Cannot calculate a linear regression if all x values are identical" := by
    rw [predict_zero_from_moving_average]
    rw [if_neg (by omega)]
    have hguard : rest.all (fun q => q.1 == p.1) = true := by
      rw [List.all_eq_true]
      intro q hq
      have hqv : q ∈ validRecent df 30 := hv ▸ List.mem_cons_of_mem p hq
      have hpv : p ∈ validRecent df 30 := hv ▸ List.mem_cons_self p rest
      simp [hx q hqv, hx p hpv]
    rw [hv, linregress]
    simp [hguard]
  refine ⟨herr, ?_⟩
  intro slope o1 o2 o4
  intro hmem
  simp only [ensemble_zero_prediction, List.map_append, List.mem_append] at hmem
  rcases hmem with ((h | h) | h) | h
  · exact not_mem_optEntry "linear" "moving_average" (by decide) o1 _ h
  · exact not_mem_optEntry "quarterly" "moving_average" (by decide) o2 _ h
  · rw [herr] at h
    simp [optEntry, tryPredictor] at h
  · exact not_mem_optEntry "acceleration" "moving_average" (by decide) o4 _ h

/-- Witness for C9 (amended): the concrete identical-x input satisfies the
hypotheses and the predictor indeed raises. -/
theorem moving_average_identical_x_C9_witness :
    10 ≤ (validRecent dfC9 30).length ∧
    (∀ p ∈ validRecent dfC9 30, p.1 = 5) ∧
    predict_zero_from_moving_average dfC9 30 =
      Except.error "Cannot calculate a linear regression if all x values are identical" :=
  ⟨by decide, by decide,
   (moving_average_identical_x_C9 dfC9 5 (by decide) (by decide)).1⟩

theorem npGradient_three (y0 y1 y2 : ℝ) :
    npGradient [y0, y1, y2] = [y1 - y0, (y2 - y0) / 2, y2 - y1] := by
  simp only [npGradient, List.length_cons, List.length_nil]
  rw [show List.range (0 + 1 + 1 + 1) = [0, 1, 2] from rfl]
  simp [List.getD]

theorem accelQuadratic_spec (acc s c last : ℝ) (ha : acc ≠ 0) :
    (discrim (0.5 * acc) s c < 0 →
      accelQuadratic acc s c last = (none, "No real solution for quadratic equation")) ∧
    (∀ r, (accelQuadratic acc s c last).1 = some r →
      r.method = "acceleration_quadratic" ∧
      0 < r.zero_date - last ∧
      0.5 * acc * (r.zero_date - last) ^ 2 + s * (r.zero_date - last) + c = 0 ∧
      ∀ u, 0 < u → 0.5 * acc * u ^ 2 + s * u + c = 0 → r.zero_date - last ≤ u) ∧
    ((accelQuadratic acc s c last).1 = none ↔
      (discrim (0.5 * acc) s c < 0 ∨
        ∀ u, 0 < u → 0.5 * acc * u ^ 2 + s * u + c ≠ 0)) := by
  have ha2 : (0.5 : ℝ) * acc ≠ 0 := mul_ne_zero (by norm_num) ha
  have hdisc : discrim (0.5 * acc) s c = s ^ 2 - 4 * (0.5 * acc) * c := by
    simp [discrim]
  by_cases hD : s ^ 2 - 4 * (0.5 * acc) * c < 0
  · have heq : accelQuadratic acc s c last =
        (none, "No real solution for quadratic equation") := by
      simp only [accelQuadratic]
      rw [if_pos hD]
    refine ⟨fun _ => heq, ?_, ?_⟩
    · intro r hr
      rw [heq] at hr
      simp at hr
    · rw [heq]
      exact iff_of_true rfl (Or.inl (hdisc ▸ hD))
  · have hD' : 0 ≤ s ^ 2 - 4 * (0.5 * acc) * c := not_lt.mp hD
    have hqq : discrim (0.5 * acc) s c =
        Real.sqrt (s ^ 2 - 4 * (0.5 * acc) * c) *
          Real.sqrt (s ^ 2 - 4 * (0.5 * acc) * c) := by
      rw [hdisc, Real.mul_self_sqrt hD']
    set q := Real.sqrt (s ^ 2 - 4 * (0.5 * acc) * c) with hqdef
    set t1 := (-s + q) / (2 * (0.5 * acc)) with ht1def
    set t2 := (-s - q) / (2 * (0.5 * acc)) with ht2def
    have hroots : ∀ x : ℝ, 0.5 * acc * x ^ 2 + s * x + c = 0 ↔ x = t1 ∨ x = t2 := by
      intro x
      have h := quadratic_eq_zero_iff ha2 hqq x
      rw [← ht1def, ← ht2def] at h
      rw [pow_two]
      exact h
    have hfalse1 : ¬ discrim (0.5 * acc) s c < 0 := by
      rw [hdisc]
      exact hD
    have hunfold : accelQuadratic acc s c last =
        match (if 0 < t1 then [t1] else []) ++ (if 0 < t2 then [t2] else []) with
        | [] => (none, "No positive solution found")
        | t :: ts =>
          (some ⟨last + ts.foldl min t, "acceleration_quadratic"⟩, "Success") := by
      simp only [accelQuadratic]
      rw [if_neg hD]
    by_cases hp1 : 0 < t1 <;> by_cases hp2 : 0 < t2
    · have heval : accelQuadratic acc s c last =
          (some ⟨last + min t1 t2, "acceleration_quadratic"⟩, "Success") := by
        rw [hunfold, if_pos hp1, if_pos hp2]
        simp
      refine ⟨fun h => absurd h hfalse1, ?_, ?_⟩
      · intro r hr
        rw [heval] at hr
        simp only [Option.some.injEq] at hr
        cases hr
        refine ⟨rfl, ?_, ?_, ?_⟩
        · rw [add_sub_cancel_left]
          exact lt_min hp1 hp2
        · rw [add_sub_cancel_left]
          rcases min_choice t1 t2 with h | h <;> rw [h]
          · exact (hroots t1).mpr (Or.inl rfl)
          · exact (hroots t2).mpr (Or.inr rfl)
        · intro u hu hru
          rw [add_sub_cancel_left]
          rcases (hroots u).mp hru with rfl | rfl
          · exact min_le_left _ _
          · exact min_le_right _ _
      · rw [heval]
        refine iff_of_false (by simp) ?_
        rintro (h | h)
        · exact hfalse1 h
        · exact h t1 hp1 ((hroots t1).mpr (Or.inl rfl))
    · have heval : accelQuadratic acc s c last =
          (some ⟨last + t1, "acceleration_quadratic"⟩, "Success") := by
        rw [hunfold, if_pos hp1, if_neg hp2]
        simp
      refine ⟨fun h => absurd h hfalse1, ?_, ?_⟩
      · intro r hr
        rw [heval] at hr
        simp only [Option.some.injEq] at hr
        cases hr
        refine ⟨rfl, ?_, ?_, ?_⟩
        · rw [add_sub_cancel_left]
          exact hp1
        · rw [add_sub_cancel_left]
          exact (hroots t1).mpr (Or.inl rfl)
        · intro u hu hru
          rw [add_sub_cancel_left]
          rcases (hroots u).mp hru with rfl | rfl
          · exact le_refl _
          · exact absurd hu hp2
      · rw [heval]
        refine iff_of_false (by simp) ?_
        rintro (h | h)
        · exact hfalse1 h
        · exact h t1 hp1 ((hroots t1).mpr (Or.inl rfl))
    · have heval : accelQuadratic acc s c last =
          (some ⟨last + t2, "acceleration_quadratic"⟩, "Success") := by
        rw [hunfold, if_neg hp1, if_pos hp2]
        simp
      refine ⟨fun h => absurd h hfalse1, ?_, ?_⟩
      · intro r hr
        rw [heval] at hr
        simp only [Option.some.injEq] at hr
        cases hr
        refine ⟨rfl, ?_, ?_, ?_⟩
        · rw [add_sub_cancel_left]
          exact hp2
        · rw [add_sub_cancel_left]
          exact (hroots t2).mpr (Or.inr rfl)
        · intro u hu hru
          rw [add_sub_cancel_left]
          rcases (hroots u).mp hru with rfl | rfl
          · exact absurd hu hp1
          · exact le_refl _
      · rw [heval]
        refine iff_of_false (by simp) ?_
        rintro (h | h)
        · exact hfalse1 h
        · exact h t2 hp2 ((hroots t2).mpr (Or.inr rfl))
    · have heval : accelQuadratic acc s c last =
          (none, "No positive solution found") := by
        rw [hunfold, if_neg hp1, if_neg hp2]
        rfl
      refine ⟨fun h => absurd h hfalse1, ?_, ?_⟩
      · intro r hr
        rw [heval] at hr
        simp at hr
      · rw [heval]
        refine iff_of_true rfl (Or.inr ?_)
        intro u hu hru
        rcases (hroots u).mp hru with rfl | rfl
        · exact hp1 hu
        · exact hp2 hu

/-- C6: in the acceleration predictor's quadratic branch (change not positive
with rising speed, not in the positive-decreasing linear branch, and
non-negligible mean acceleration), the equation
`0.5*accel*t^2 + speed*t + change = 0` is solved; the predictor fails when
the discriminant is negative, and otherwise succeeds exactly when a strictly
positive root exists, in which case the returned date is the smallest positive
root added (in days) to the most recent observed date of the series — never
to the current wall-clock time, which the function does not read. -/
theorem accel_quadratic_C6 (df : List ARow)
    (h1 : ¬(accelRecentChange df > 0 ∧ accelRecentSpeed df ≥ 0))
    (h2 : ¬(accelRecentChange df > 0 ∧ accelRecentSpeed df < 0))
    (h3 : ¬(|accelRecentAccel df| < 1e-10)) :
    (discrim (0.5 * accelRecentAccel df) (accelRecentSpeed df) (accelRecentChange df) < 0 →
      predict_zero_with_acceleration df = (none, "No real solution for quadratic equation")) ∧
    (∀ r, (predict_zero_with_acceleration df).1 = some r →
      r.method = "acceleration_quadratic" ∧
      0 < r.zero_date - accelLastDate df ∧
      0.5 * accelRecentAccel df * (r.zero_date - accelLastDate df) ^ 2 +
        accelRecentSpeed df * (r.zero_date - accelLastDate df) +
        accelRecentChange df = 0 ∧
      ∀ u, 0 < u →
        0.5 * accelRecentAccel df * u ^ 2 + accelRecentSpeed df * u +
          accelRecentChange df = 0 → r.zero_date - accelLastDate df ≤ u) ∧
    ((predict_zero_with_acceleration df).1 = none ↔
      (discrim (0.5 * accelRecentAccel df) (accelRecentSpeed df)
          (accelRecentChange df) < 0 ∨
        ∀ u, 0 < u →
          0.5 * accelRecentAccel df * u ^ 2 + accelRecentSpeed df * u +
            accelRecentChange df ≠ 0)) := by
  have ha : accelRecentAccel df ≠ 0 := by
    intro h
    apply h3
    rw [h]
    norm_num
  have hpred : predict_zero_with_acceleration df =
      accelQuadratic (accelRecentAccel df) (accelRecentSpeed df)
        (accelRecentChange df) (accelLastDate df) := by
    simp only [predict_zero_with_acceleration]
    rw [if_neg h1, if_neg h2, if_neg h3]
  rw [hpred]
  exact accelQuadratic_spec _ _ _ _ ha

theorem dfC6_change : accelRecentChange dfC6 = -4 := by
  simp only [accelRecentChange, dfC6, listMean, tailRows, List.map_cons, List.map_nil]
  norm_num

theorem dfC6_speed : accelRecentSpeed dfC6 = 3 := by
  simp only [accelRecentSpeed, dfC6, listMean, tailRows, List.map_cons, List.map_nil,
    npGradient_three]
  norm_num

theorem dfC6_accel : accelRecentAccel dfC6 = 2 := by
  simp only [accelRecentAccel, dfC6, listMean, tailRows, List.map_cons, List.map_nil,
    npGradient_three]
  norm_num

/-- Witness for C6: the concrete series reaches the quadratic branch and
satisfies its stated behaviour. -/
theorem accel_quadratic_C6_witness :
    (¬(accelRecentChange dfC6 > 0 ∧ accelRecentSpeed dfC6 ≥ 0)) ∧
    (¬(accelRecentChange dfC6 > 0 ∧ accelRecentSpeed dfC6 < 0)) ∧
    (¬(|accelRecentAccel dfC6| < 1e-10)) ∧
    (∀ r, (predict_zero_with_acceleration dfC6).1 = some r →
      r.method = "acceleration_quadratic" ∧
      0 < r.zero_date - accelLastDate dfC6 ∧
      0.5 * accelRecentAccel dfC6 * (r.zero_date - accelLastDate dfC6) ^ 2 +
        accelRecentSpeed dfC6 * (r.zero_date - accelLastDate dfC6) +
        accelRecentChange dfC6 = 0 ∧
      ∀ u, 0 < u →
        0.5 * accelRecentAccel dfC6 * u ^ 2 + accelRecentSpeed dfC6 * u +
          accelRecentChange dfC6 = 0 → r.zero_date - accelLastDate dfC6 ≤ u) ∧
    ((predict_zero_with_acceleration dfC6).1 = none ↔
      (discrim (0.5 * accelRecentAccel dfC6) (accelRecentSpeed dfC6)
          (accelRecentChange dfC6) < 0 ∨
        ∀ u, 0 < u →
          0.5 * accelRecentAccel dfC6 * u ^ 2 + accelRecentSpeed dfC6 * u +
            accelRecentChange dfC6 ≠ 0)) := by
  have p1 : ¬(accelRecentChange dfC6 > 0 ∧ accelRecentSpeed dfC6 ≥ 0) := by
    rw [dfC6_change]
    intro h
    norm_num at h
  have p2 : ¬(accelRecentChange dfC6 > 0 ∧ accelRecentSpeed dfC6 < 0) := by
    rw [dfC6_change]
    intro h
    norm_num at h
  have p3 : ¬(|accelRecentAccel dfC6| < 1e-10) := by
    rw [dfC6_accel, abs_of_pos (by norm_num : (0 : ℝ) < 2)]
    norm_num
  have h := accel_quadratic_C6 dfC6 p1 p2 p3
  exact ⟨p1, p2, p3, h.2.1, h.2.2⟩

end ICP
